import Mathlib

/-!
Shallow embedding of the Yahoo Finance HTTP gateway (`src/main.py`).

The service is a thin façade: each handler calls the upstream yfinance
client, remaps and rounds the returned fields, and on any exception
returns HTTP 500 with a flat error envelope.  We embed:

* Python floats as `ℚ` (with an explicit `nan` case where the code can
  meet one, namely the `Volume` column fed to `int(...)`),
* Python `round(x, n)` as round-half-to-even on `ℚ`,
* exceptions as `Except String`,
* the upstream client as an explicit argument: `Except String Info` for
  `Ticker(t).info` and `Except String (List Row)` for
  `Ticker(t).history(...)`,
* an HTTP response as either an `ok` body (FastAPI serves it with
  status 200) or an `httpError status detail` (the handler raising
  `HTTPException(status_code, detail)`).
-/

namespace YahooFinanceApi

/-- Round the fraction `n / d` (with `d ≠ 0`) half to even (banker's
rounding), as CPython's `round` does.  `n.fdiv d` is the floor of the
fraction and `n - f * d` its remainder in `[0, d)`, so comparing twice
the remainder with `d` decides between floor, ceiling and the tie. -/
def roundHalfEvenAt (n : ℤ) (d : ℕ) : ℤ :=
  let f : ℤ := n.fdiv d
  let r : ℤ := n - f * d
  if 2 * r < d then f
  else if (d : ℤ) < 2 * r then f + 1
  else if f % 2 = 0 then f else f + 1

/-- Python's `round(x, nd)` for a nonnegative number of digits `nd`:
round `x * 10 ^ nd` half to even, then divide back.  Computed on the
exact fraction `x.num * 10 ^ nd / x.den`. -/
def pyRound (nd : ℕ) (q : ℚ) : ℚ :=
  mkRat (roundHalfEvenAt (q.num * 10 ^ nd) q.den) (10 ^ nd)

deriving instance DecidableEq for Except

/-- A Python float that may be NaN.  Used for the upstream `Volume`
column, which the code passes to `int(...)`. -/
inductive PyFloat where
  | finite (q : ℚ)
  | nan
deriving DecidableEq, Repr

/-- The floor of a rational, computed on its numerator and denominator. -/
def ratFloor (q : ℚ) : ℤ := q.num.fdiv q.den

/-- The ceiling of a rational, computed on its numerator and denominator. -/
def ratCeil (q : ℚ) : ℤ := -((-q.num).fdiv q.den)

/-- Python's `int(x)` on a float: truncation toward zero (floor for
nonnegative values, ceiling for negative ones, deciding the sign by the
numerator); raises `ValueError` on NaN. -/
def pyInt : PyFloat → Except String ℤ
  | .finite q => .ok (if q.num < 0 then ratCeil q else ratFloor q)
  | .nan => .error "cannot convert float NaN to integer"

/-- The upstream `stock.info` mapping, restricted to the keys the
handler reads via `info.get(...)`.  `none` models an absent key. -/
structure Info where
  longName : Option String := none
  trailingPE : Option ℚ := none
  priceToBook : Option ℚ := none
  priceToSalesTrailing12Months : Option ℚ := none
  pegRatio : Option ℚ := none
  returnOnEquity : Option ℚ := none
  returnOnAssets : Option ℚ := none
  profitMargins : Option ℚ := none
  dividendYield : Option ℚ := none
  dividendRate : Option ℚ := none
  payoutRatio : Option ℚ := none
  revenueGrowth : Option ℚ := none
  earningsGrowth : Option ℚ := none
  debtToEquity : Option ℚ := none
  currentRatio : Option ℚ := none
  beta : Option ℚ := none
  recommendationKey : Option String := none
deriving DecidableEq, Repr

/-- One row of the upstream `stock.history(...)` DataFrame: the index
(already formatted by `strftime('%Y-%m-%d')`) and the OHLCV columns. -/
structure Row where
  date : String
  Open : ℚ
  High : ℚ
  Low : ℚ
  Close : ℚ
  Volume : PyFloat
deriving DecidableEq, Repr

/-- Pydantic model `FundamentalData` from `src/main.py`. -/
structure FundamentalData where
  ticker : String
  name : String
  date : String
  pe_ratio : Option ℚ := none
  pb_ratio : Option ℚ := none
  ps_ratio : Option ℚ := none
  peg_ratio : Option ℚ := none
  roe : Option ℚ := none
  roa : Option ℚ := none
  profit_margin : Option ℚ := none
  dividend_yield : Option ℚ := none
  dividend_per_share : Option ℚ := none
  payout_ratio : Option ℚ := none
  revenue_growth : Option ℚ := none
  earnings_growth : Option ℚ := none
  debt_to_equity : Option ℚ := none
  current_ratio : Option ℚ := none
  beta : Option ℚ := none
  analyst_rating : Option String := none
  success : Bool := true
deriving DecidableEq, Repr

/-- Pydantic model `HistoricalDataPoint` from `src/main.py`. -/
structure HistoricalDataPoint where
  date : String
  «open» : ℚ
  high : ℚ
  low : ℚ
  close : ℚ
  volume : ℤ
  adjusted_close : ℚ
deriving DecidableEq, Repr

/-- Pydantic model `HistoricalResponse` from `src/main.py`. -/
structure HistoricalResponse where
  ticker : String
  period : String
  interval : String
  data : List HistoricalDataPoint
  success : Bool := true
deriving DecidableEq, Repr

/-- Pydantic model `QuoteData` from `src/main.py`. -/
structure QuoteData where
  ticker : String
  date : String
  «open» : ℚ
  high : ℚ
  low : ℚ
  close : ℚ
  volume : ℤ
  adjusted_close : ℚ
  success : Bool := true
deriving DecidableEq, Repr

/-- Pydantic model `ErrorResponse` from `src/main.py`: the flat error
envelope put in the `HTTPException` detail. -/
structure ErrorResponse where
  ticker : String
  success : Bool := false
  error : String
deriving DecidableEq, Repr

/-- A handler's HTTP outcome: `ok body` is served with status 200;
`httpError s d` is `raise HTTPException(status_code=s, detail=d)`. -/
inductive HttpResponse (α : Type) where
  | ok (body : α)
  | httpError (status : ℕ) (detail : ErrorResponse)
deriving DecidableEq, Repr

/-- The HTTP status code of a response (FastAPI serves `ok` with 200). -/
def HttpResponse.statusCode : HttpResponse α → ℕ
  | .ok _ => 200
  | .httpError s _ => s

/-- `get_fundamentals` (`src/main.py` lines 114-187).  `today` is
`datetime.now().strftime('%Y-%m-%d')`; `upstream` is the result of
`yf.Ticker(ticker).info` (`.error e` when the upstream call raises an
exception whose `str` is `e`). -/
def get_fundamentals (ticker today : String) (upstream : Except String Info) :
    HttpResponse FundamentalData :=
  match upstream with
  | .error e => .httpError 500 { ticker := ticker, success := false, error := e }
  | .ok info =>
      .ok {
        ticker := ticker
        name := info.longName.getD ""
        date := today
        pe_ratio := info.trailingPE
        pb_ratio := info.priceToBook
        ps_ratio := info.priceToSalesTrailing12Months
        peg_ratio := info.pegRatio
        roe := info.returnOnEquity.map (fun v => pyRound 2 (v * 100))
        roa := info.returnOnAssets.map (fun v => pyRound 2 (v * 100))
        profit_margin := info.profitMargins.map (fun v => pyRound 2 (v * 100))
        dividend_yield := info.dividendYield.map (fun v => pyRound 2 (v * 100))
        dividend_per_share := info.dividendRate
        payout_ratio := info.payoutRatio
        revenue_growth := info.revenueGrowth.map (fun v => pyRound 2 (v * 100))
        earnings_growth := info.earningsGrowth.map (fun v => pyRound 2 (v * 100))
        debt_to_equity := info.debtToEquity
        current_ratio := info.currentRatio
        beta := info.beta
        analyst_rating := info.recommendationKey
        success := true }

/-- The per-row transformation of `get_historical`'s loop
(`src/main.py` lines 218-227): round OHLC prices to 4 decimals, coerce
`Volume` with `int(...)` (which can raise), duplicate the rounded close
as `adjusted_close`. -/
def transformRow (r : Row) : Except String HistoricalDataPoint :=
  match pyInt r.Volume with
  | .error e => .error e
  | .ok v =>
      .ok {
        date := r.date
        «open» := pyRound 4 r.Open
        high := pyRound 4 r.High
        low := pyRound 4 r.Low
        close := pyRound 4 r.Close
        volume := v
        adjusted_close := pyRound 4 r.Close }

/-- The row loop of `get_historical` (`src/main.py` lines 217-227): the
list `data` after appending the transformation of every row in order,
propagating the first exception the loop raises. -/
def transformRows : List Row → Except String (List HistoricalDataPoint)
  | [] => .ok []
  | r :: rest =>
      match transformRow r with
      | .error e => .error e
      | .ok p =>
          match transformRows rest with
          | .error e => .error e
          | .ok ps => .ok (p :: ps)

/-- `get_historical` (`src/main.py` lines 190-245).  `upstream` is the
result of `stock.history(period, interval)`. -/
def get_historical (ticker period interval : String)
    (upstream : Except String (List Row)) : HttpResponse HistoricalResponse :=
  match upstream with
  | .error e => .httpError 500 { ticker := ticker, success := false, error := e }
  | .ok rows =>
      match transformRows rows with
      | .error e => .httpError 500 { ticker := ticker, success := false, error := e }
      | .ok data =>
          .ok {
            ticker := ticker
            period := period
            interval := interval
            data := data
            success := true }

/-- `get_quote` (`src/main.py` lines 248-294).  `upstream` is the result
of `stock.history(period='1d')`; an empty series raises
`ValueError(f"No data available for {ticker}")`, caught by the same
`except` as upstream failures. -/
def get_quote (ticker : String) (upstream : Except String (List Row)) :
    HttpResponse QuoteData :=
  match upstream with
  | .error e => .httpError 500 { ticker := ticker, success := false, error := e }
  | .ok rows =>
      match rows.getLast? with
      | none =>
          .httpError 500 { ticker := ticker, success := false,
                           error := "No data available for " ++ ticker }
      | some latest =>
          match pyInt latest.Volume with
          | .error e =>
              .httpError 500 { ticker := ticker, success := false, error := e }
          | .ok v =>
              .ok {
                ticker := ticker
                date := latest.date
                «open» := pyRound 4 latest.Open
                high := pyRound 4 latest.High
                low := pyRound 4 latest.Low
                close := pyRound 4 latest.Close
                volume := v
                adjusted_close := pyRound 4 latest.Close
                success := true }

/-! ### Helper lemmas -/

/-- Multiplying a fraction by the literal `100 : ℚ` on the numerator. -/
theorem mkRat_mul_hundred (n : ℤ) (d : ℕ) : mkRat n d * 100 = mkRat (n * 100) d := by
  have h : (100 : ℚ) = mkRat 100 1 := rfl
  rw [h, Rat.mkRat_mul_mkRat, Nat.mul_one]

/-- `ratFloor` agrees with Mathlib's floor. -/
theorem ratFloor_eq (q : ℚ) : ratFloor q = ⌊q⌋ := by
  rw [Rat.floor_def, ratFloor, Int.fdiv_eq_ediv _ (Int.ofNat_nonneg _)]

/-- `ratCeil` agrees with Mathlib's ceiling. -/
theorem ratCeil_eq (q : ℚ) : ratCeil q = ⌈q⌉ := by
  have h : ratCeil q = -ratFloor (-q) := by
    simp [ratCeil, ratFloor, Rat.neg_num, Rat.neg_den]
  rw [h, ratFloor_eq, Int.floor_neg, neg_neg]

/-- A rational is negative exactly when its numerator is. -/
theorem num_neg_iff (q : ℚ) : q.num < 0 ↔ q < 0 := by
  rw [← not_le, ← not_le, Rat.num_nonneg]

/-- The transformation of one row keeps the row's date. -/
theorem transformRow_date {r : Row} {p : HistoricalDataPoint}
    (h : transformRow r = .ok p) : p.date = r.date := by
  unfold transformRow at h
  cases hv : pyInt r.Volume with
  | error e => rw [hv] at h; cases h
  | ok v => rw [hv] at h; cases h; rfl

/-- The transformation of one row succeeds exactly when the volume is
not NaN. -/
theorem transformRow_ok_iff (r : Row) :
    (∃ p, transformRow r = .ok p) ↔ r.Volume ≠ .nan := by
  unfold transformRow
  cases hv : r.Volume with
  | nan => simp [pyInt]
  | finite q => simp [pyInt]

/-- A successful row loop produces exactly one point per row. -/
theorem transformRows_ok_length {rows : List Row} {ps : List HistoricalDataPoint}
    (h : transformRows rows = .ok ps) : ps.length = rows.length := by
  induction rows generalizing ps with
  | nil => unfold transformRows at h; cases h; rfl
  | cons r rest ih =>
    unfold transformRows at h
    cases hr : transformRow r with
    | error e => rw [hr] at h; cases h
    | ok p =>
      rw [hr] at h
      cases hrest : transformRows rest with
      | error e => rw [hrest] at h; cases h
      | ok ps' =>
        rw [hrest] at h
        cases h
        simp [ih hrest]

/-- A successful row loop transforms the `j`-th row into the `j`-th
point. -/
theorem transformRows_ok_get {rows : List Row} {ps : List HistoricalDataPoint}
    (h : transformRows rows = .ok ps) (j : ℕ) (hj : j < rows.length)
    (hj' : j < ps.length) :
    transformRow (rows.get ⟨j, hj⟩) = .ok (ps.get ⟨j, hj'⟩) := by
  induction rows generalizing ps j with
  | nil => exact absurd hj (by simp)
  | cons r rest ih =>
    unfold transformRows at h
    cases hr : transformRow r with
    | error e => rw [hr] at h; cases h
    | ok p =>
      rw [hr] at h
      cases hrest : transformRows rest with
      | error e => rw [hrest] at h; cases h
      | ok ps' =>
        rw [hrest] at h
        cases h
        cases j with
        | zero => simpa using hr
        | succ k => exact ih hrest k (by simpa using hj) (by simpa using hj')

/-- A successful row loop keeps the dates of the rows, in order. -/
theorem transformRows_map_date {rows : List Row} {ps : List HistoricalDataPoint}
    (h : transformRows rows = .ok ps) :
    ps.map HistoricalDataPoint.date = rows.map Row.date := by
  induction rows generalizing ps with
  | nil => unfold transformRows at h; cases h; rfl
  | cons r rest ih =>
    unfold transformRows at h
    cases hr : transformRow r with
    | error e => rw [hr] at h; cases h
    | ok p =>
      rw [hr] at h
      cases hrest : transformRows rest with
      | error e => rw [hrest] at h; cases h
      | ok ps' =>
        rw [hrest] at h
        cases h
        simp [ih hrest, transformRow_date hr]

/-- The row loop raises if any row's volume is NaN. -/
theorem transformRows_error_of_nan {rows : List Row} {r : Row}
    (hmem : r ∈ rows) (hnan : r.Volume = .nan) :
    ∃ m, transformRows rows = .error m := by
  induction rows with
  | nil => exact absurd hmem (by simp)
  | cons r' rest ih =>
    unfold transformRows
    rcases List.mem_cons.1 hmem with h | h
    · subst h
      refine ⟨"cannot convert float NaN to integer", ?_⟩
      unfold transformRow
      rw [hnan]
      rfl
    · cases hr : transformRow r' with
      | error e => exact ⟨e, rfl⟩
      | ok p =>
        obtain ⟨m, hm⟩ := ih h
        exact ⟨m, by rw [hm]⟩

/-! ### Claim theorems -/

/-- C1: for every upstream info mapping, `get_fundamentals` multiplies
exactly the six fields roe, roa, profit_margin, dividend_yield,
revenue_growth, earnings_growth (when present) by 100 and rounds to
2 decimal places, while every other numeric output field equals the
upstream value unchanged and unrounded; e.g. upstream `0.153` becomes
`15.3`. -/
theorem C1_percentage_fields (ticker today : String) (info : Info) :
    ∃ r, get_fundamentals ticker today (.ok info) = .ok r ∧
      r.roe = info.returnOnEquity.map (fun v => pyRound 2 (v * 100)) ∧
      r.roa = info.returnOnAssets.map (fun v => pyRound 2 (v * 100)) ∧
      r.profit_margin = info.profitMargins.map (fun v => pyRound 2 (v * 100)) ∧
      r.dividend_yield = info.dividendYield.map (fun v => pyRound 2 (v * 100)) ∧
      r.revenue_growth = info.revenueGrowth.map (fun v => pyRound 2 (v * 100)) ∧
      r.earnings_growth = info.earningsGrowth.map (fun v => pyRound 2 (v * 100)) ∧
      r.pe_ratio = info.trailingPE ∧
      r.pb_ratio = info.priceToBook ∧
      r.ps_ratio = info.priceToSalesTrailing12Months ∧
      r.peg_ratio = info.pegRatio ∧
      r.dividend_per_share = info.dividendRate ∧
      r.payout_ratio = info.payoutRatio ∧
      r.debt_to_equity = info.debtToEquity ∧
      r.current_ratio = info.currentRatio ∧
      r.beta = info.beta ∧
      pyRound 2 (mkRat 153 1000 * 100) = mkRat 153 10 :=
  ⟨_, rfl, rfl, rfl, rfl, rfl, rfl, rfl, rfl, rfl, rfl, rfl, rfl, rfl, rfl,
    rfl, rfl, by rw [mkRat_mul_hundred]; decide⟩

/-- C5: a `get_historical` request whose upstream call returns an empty
series (without raising) is a success: status 200, `success = true`,
`data = []`, with ticker, period and interval echoed back. -/
theorem C5_empty_series_success (ticker period interval : String) :
    get_historical ticker period interval (.ok []) =
      .ok { ticker := ticker, period := period, interval := interval,
            data := [], success := true } ∧
    (get_historical ticker period interval (.ok [])).statusCode = 200 :=
  ⟨rfl, rfl⟩

/-- C6: a `get_quote` request whose upstream single-day series is empty
raises the "no data available" condition, surfaced exactly like an
upstream exception with that message: HTTP 500 with the error envelope
`{ticker, success := false, error}`, never an empty success payload. -/
theorem C6_quote_empty_series (ticker : String) :
    get_quote ticker (.ok []) =
      .httpError 500 { ticker := ticker, success := false,
                       error := "No data available for " ++ ticker } ∧
    get_quote ticker (.ok []) =
      get_quote ticker (.error ("No data available for " ++ ticker)) ∧
    (get_quote ticker (.ok [])).statusCode = 500 :=
  ⟨rfl, rfl, rfl⟩

/-- C9: when the upstream info mapping lacks `longName`,
`get_fundamentals` still succeeds and returns `name = ""` — a present
empty string, unlike the numeric fields which become `none` when
absent. -/
theorem C9_missing_longName (ticker today : String) (info : Info) :
    ∃ r, get_fundamentals ticker today
        (.ok { info with longName := none }) = .ok r ∧
      r.name = "" ∧ r.success = true :=
  ⟨_, rfl, rfl, rfl⟩

/-- C3: `get_historical` emits exactly one point per upstream row, in
the upstream order: the output length equals the number of rows, the
dates appear in exactly the upstream order (never re-sorted), and the
`j`-th point is the transformation of the `j`-th row. -/
theorem C3_row_correspondence (ticker period interval : String)
    (rows : List Row) (resp : HistoricalResponse)
    (h : get_historical ticker period interval (.ok rows) = .ok resp) :
    resp.data.length = rows.length ∧
    resp.data.map HistoricalDataPoint.date = rows.map Row.date ∧
    ∀ j (hj : j < rows.length) (hj' : j < resp.data.length),
      transformRow (rows.get ⟨j, hj⟩) = .ok (resp.data.get ⟨j, hj'⟩) := by
  simp only [get_historical] at h
  cases htr : transformRows rows with
  | error e => rw [htr] at h; cases h
  | ok ps =>
    rw [htr] at h
    cases h
    exact ⟨transformRows_ok_length htr, transformRows_map_date htr,
      fun j hj hj' => transformRows_ok_get htr j hj hj'⟩

/-- A successful row transformation duplicates the rounded close as the
adjusted close. -/
theorem transformRow_adjusted {r : Row} {p : HistoricalDataPoint}
    (h : transformRow r = .ok p) :
    p.adjusted_close = p.close ∧ p.close = pyRound 4 r.Close := by
  unfold transformRow at h
  cases hv : pyInt r.Volume with
  | error e => rw [hv] at h; cases h
  | ok v => rw [hv] at h; cases h; exact ⟨rfl, rfl⟩

/-- C4: every point emitted by the row transformation — in
`get_historical`'s output and in `get_quote`'s — has
`adjusted_close` equal to `close`, both being the upstream `Close`
rounded to 4 decimal places. -/
theorem C4_adjusted_close_eq_close (ticker period interval : String)
    (rows : List Row) (r : Row) (pnt : HistoricalDataPoint)
    (resp : HistoricalResponse) (q : QuoteData) :
    (transformRow r = .ok pnt →
      pnt.adjusted_close = pnt.close ∧ pnt.close = pyRound 4 r.Close) ∧
    (get_historical ticker period interval (.ok rows) = .ok resp →
      ∀ x ∈ resp.data, x.adjusted_close = x.close) ∧
    (get_quote ticker (.ok rows) = .ok q → q.adjusted_close = q.close) := by
  refine ⟨fun h => transformRow_adjusted h, ?_, ?_⟩
  · intro h x hx
    simp only [get_historical] at h
    cases htr : transformRows rows with
    | error e => rw [htr] at h; cases h
    | ok ps =>
      rw [htr] at h
      cases h
      obtain ⟨⟨j, hj'⟩, rfl⟩ := List.mem_iff_get.1 hx
      have hj : j < rows.length := by
        rw [← transformRows_ok_length htr]; exact hj'
      exact (transformRow_adjusted (transformRows_ok_get htr j hj hj')).1
  · intro h
    cases hlast : rows.getLast? with
    | none => simp only [get_quote, hlast] at h; cases h
    | some latest =>
      simp only [get_quote, hlast] at h
      cases hv : pyInt latest.Volume with
      | error e => rw [hv] at h; cases h
      | ok v => rw [hv] at h; cases h; rfl

/-- C7: on a non-empty upstream series `get_quote` returns exactly one
point built from the last row, whose OHLCV fields are what
`get_historical`'s per-row transformation emits for that same row, and
whose date is that row's own date (the handler has no access to the
current calendar date at all — it takes no clock input). -/
theorem C7_quote_refines_historical (ticker : String) (rows : List Row)
    (r : Row) (pnt : HistoricalDataPoint)
    (hlast : rows.getLast? = some r) (hp : transformRow r = .ok pnt) :
    get_quote ticker (.ok rows) =
      .ok { ticker := ticker, date := pnt.date, «open» := pnt.«open»,
            high := pnt.high, low := pnt.low, close := pnt.close,
            volume := pnt.volume, adjusted_close := pnt.adjusted_close,
            success := true } ∧
    pnt.date = r.date := by
  unfold transformRow at hp
  cases hv : pyInt r.Volume with
  | error e => rw [hv] at hp; cases hp
  | ok v =>
    rw [hv] at hp
    cases hp
    refine ⟨?_, rfl⟩
    simp only [get_quote, hlast, hv]

/-- C8: a fundamentals field absent upstream is `none` in the output —
never zero — and a field present upstream is populated; output
optional fields are `none` exactly when the upstream key is absent. -/
theorem C8_absent_fields_null (ticker today : String) (info : Info) :
    ∃ r, get_fundamentals ticker today (.ok info) = .ok r ∧
      (r.pe_ratio = none ↔ info.trailingPE = none) ∧
      (r.pb_ratio = none ↔ info.priceToBook = none) ∧
      (r.ps_ratio = none ↔ info.priceToSalesTrailing12Months = none) ∧
      (r.peg_ratio = none ↔ info.pegRatio = none) ∧
      (r.roe = none ↔ info.returnOnEquity = none) ∧
      (r.roa = none ↔ info.returnOnAssets = none) ∧
      (r.profit_margin = none ↔ info.profitMargins = none) ∧
      (r.dividend_yield = none ↔ info.dividendYield = none) ∧
      (r.dividend_per_share = none ↔ info.dividendRate = none) ∧
      (r.payout_ratio = none ↔ info.payoutRatio = none) ∧
      (r.revenue_growth = none ↔ info.revenueGrowth = none) ∧
      (r.earnings_growth = none ↔ info.earningsGrowth = none) ∧
      (r.debt_to_equity = none ↔ info.debtToEquity = none) ∧
      (r.current_ratio = none ↔ info.currentRatio = none) ∧
      (r.beta = none ↔ info.beta = none) ∧
      (r.analyst_rating = none ↔ info.recommendationKey = none) :=
  ⟨_, rfl, Iff.rfl, Iff.rfl, Iff.rfl, Iff.rfl,
    Option.map_eq_none', Option.map_eq_none', Option.map_eq_none',
    Option.map_eq_none', Iff.rfl, Iff.rfl,
    Option.map_eq_none', Option.map_eq_none',
    Iff.rfl, Iff.rfl, Iff.rfl, Iff.rfl⟩

/-- A failing row transformation can only fail with the NaN message. -/
theorem transformRow_error_msg {r : Row} {m : String}
    (h : transformRow r = .error m) :
    m = "cannot convert float NaN to integer" ∧ r.Volume = .nan := by
  unfold transformRow at h
  cases hv : r.Volume with
  | finite q => rw [hv] at h; cases h
  | nan => rw [hv] at h; cases h; exact ⟨rfl, rfl⟩

/-- If some row's volume is NaN, the row loop raises the NaN message. -/
theorem transformRows_nan_error {rows : List Row} {r : Row}
    (hmem : r ∈ rows) (hnan : r.Volume = .nan) :
    transformRows rows = .error "cannot convert float NaN to integer" := by
  obtain ⟨m, hm⟩ := transformRows_error_of_nan hmem hnan
  have hmsg : m = "cannot convert float NaN to integer" := by
    clear hmem hnan
    induction rows generalizing m with
    | nil => unfold transformRows at hm; cases hm
    | cons r' rest ih =>
      unfold transformRows at hm
      cases hr : transformRow r' with
      | error e =>
        rw [hr] at hm
        cases hm
        exact (transformRow_error_msg hr).1
      | ok p =>
        rw [hr] at hm
        cases hrest : transformRows rest with
        | error e => rw [hrest] at hm; cases hm; exact ih _ hrest
        | ok ps => rw [hrest] at hm; cases hm
  rw [← hmsg]
  exact hm

/-- C2 (amended): any upstream exception — and any exception raised
while transforming the data, in `get_historical`'s row loop as well as
in `get_quote` (the `int(Volume)` coercion of the last row and the
in-handler "no data available" raise) — is surfaced as HTTP 500 whose
detail is exactly the flat envelope `{ticker, success := false,
error := m}` carrying the exception's message verbatim (so the error
text is non-empty exactly when the message is), with no data fields
(the `ErrorResponse` shape has none); every success response carries
`success = true` (and its shape has no error field at all). -/
theorem C2_error_envelope (ticker today period interval e : String)
    (rows : List Row) (info : Info) :
    get_fundamentals ticker today (.error e) =
      .httpError 500 { ticker := ticker, success := false, error := e } ∧
    get_historical ticker period interval (.error e) =
      .httpError 500 { ticker := ticker, success := false, error := e } ∧
    get_quote ticker (.error e) =
      .httpError 500 { ticker := ticker, success := false, error := e } ∧
    (∀ m, transformRows rows = .error m →
      get_historical ticker period interval (.ok rows) =
        .httpError 500 { ticker := ticker, success := false, error := m }) ∧
    (∀ r, get_fundamentals ticker today (.ok info) = .ok r →
      r.success = true) ∧
    (∀ resp, get_historical ticker period interval (.ok rows) = .ok resp →
      resp.success = true) ∧
    (∀ q, get_quote ticker (.ok rows) = .ok q → q.success = true) ∧
    (∀ r m, rows.getLast? = some r → pyInt r.Volume = .error m →
      get_quote ticker (.ok rows) =
        .httpError 500 { ticker := ticker, success := false, error := m }) ∧
    (rows.getLast? = none →
      get_quote ticker (.ok rows) =
        .httpError 500 { ticker := ticker, success := false,
                         error := "No data available for " ++ ticker }) := by
  refine ⟨rfl, rfl, rfl, ?_, ?_, ?_, ?_, ?_, ?_⟩
  · intro m hm
    simp only [get_historical, hm]
  · intro r h
    cases h
    rfl
  · intro resp h
    simp only [get_historical] at h
    cases htr : transformRows rows with
    | error e' => rw [htr] at h; cases h
    | ok ps => rw [htr] at h; cases h; rfl
  · intro q h
    cases hlast : rows.getLast? with
    | none => simp only [get_quote, hlast] at h; cases h
    | some latest =>
      simp only [get_quote, hlast] at h
      cases hv : pyInt latest.Volume with
      | error e' => rw [hv] at h; cases h
      | ok v => rw [hv] at h; cases h; rfl
  · intro r m hlast hv
    simp only [get_quote, hlast, hv]
  · intro hlast
    simp only [get_quote, hlast]

/-- C2 counterexample: the claim as stated also asserts the envelope's
error text is always non-empty, but the handler copies `str(e)`
verbatim, so an upstream exception with an empty message yields an
empty error string. -/
theorem C2_counterexample :
    ¬ ∀ (ticker today e : String), ∃ env : ErrorResponse,
        get_fundamentals ticker today (.error e) = .httpError 500 env ∧
        env.error ≠ "" := by
  intro hall
  obtain ⟨env, heq, hne⟩ := hall "AAPL" "2026-01-01" ""
  have h0 : get_fundamentals "AAPL" "2026-01-01" (.error "") =
      .httpError 500 { ticker := "AAPL", success := false, error := "" } := rfl
  rw [h0] at heq
  injection heq with h1 h2
  rw [← h2] at hne
  exact hne rfl

/-- C10: the `Volume` column is coerced with `int(...)`: truncation
toward zero (floor for a nonnegative value, ceiling for a negative one
— never rounding, e.g. `3.9 ↦ 3`), and NaN raises, turning the whole
request into the HTTP 500 error envelope rather than a partial
result — in `get_historical` for any NaN row, and in `get_quote` for a
NaN last row. -/
theorem C10_volume_coercion (ticker period interval : String)
    (rows : List Row) (r : Row) (q : ℚ) (n : ℤ) :
    (pyInt (.finite q) = .ok n →
      (0 ≤ q → n = ⌊q⌋) ∧ (q < 0 → n = ⌈q⌉)) ∧
    pyInt (.finite (mkRat 39 10)) = .ok 3 ∧
    pyInt (.finite (mkRat (-39) 10)) = .ok (-3) ∧
    pyInt .nan = .error "cannot convert float NaN to integer" ∧
    (r ∈ rows → r.Volume = .nan →
      get_historical ticker period interval (.ok rows) =
        .httpError 500 { ticker := ticker, success := false,
                         error := "cannot convert float NaN to integer" }) ∧
    (rows.getLast? = some r → r.Volume = .nan →
      get_quote ticker (.ok rows) =
        .httpError 500 { ticker := ticker, success := false,
                         error := "cannot convert float NaN to integer" }) := by
  refine ⟨?_, by decide, by decide, rfl, ?_, ?_⟩
  · intro h
    unfold pyInt at h
    cases h
    constructor
    · intro hq
      have hn : ¬ q.num < 0 := by
        rw [num_neg_iff]
        exact not_lt.2 hq
      rw [if_neg hn, ratFloor_eq]
    · intro hq
      have hn : q.num < 0 := (num_neg_iff q).2 hq
      rw [if_pos hn, ratCeil_eq]
  · intro hmem hnan
    simp only [get_historical, transformRows_nan_error hmem hnan]
  · intro hlast hnan
    have hv : pyInt r.Volume = .error "cannot convert float NaN to integer" := by
      rw [hnan]
      rfl
    simp only [get_quote, hlast, hv]

/-! ### Concrete witnesses -/

/-- A concrete row whose volume is NaN, for the C2 witness. -/
def rowC2 : Row :=
  { date := "2026-02-02", Open := mkRat 5 1, High := mkRat 6 1,
    Low := mkRat 4 1, Close := mkRat 5 1, Volume := .nan }

/-- Witness for C2 at concrete inputs: an upstream exception "boom", a
row-loop transformation failure on a NaN row, `get_quote`'s `int(...)`
failure on a NaN last row, `get_quote`'s in-handler raise on an empty
series, and a success response. -/
theorem C2_witness :
    get_fundamentals "MC.PA" "2026-02-02" (.error "boom") =
      .httpError 500 { ticker := "MC.PA", success := false, error := "boom" } ∧
    get_historical "MC.PA" "1y" "1d" (.ok [rowC2]) =
      .httpError 500 { ticker := "MC.PA", success := false,
                       error := "cannot convert float NaN to integer" } ∧
    get_quote "MC.PA" (.ok [rowC2]) =
      .httpError 500 { ticker := "MC.PA", success := false,
                       error := "cannot convert float NaN to integer" } ∧
    get_quote "MC.PA" (.ok []) =
      .httpError 500 { ticker := "MC.PA", success := false,
                       error := "No data available for MC.PA" } ∧
    ({ ticker := "MC.PA", name := "", date := "2026-02-02" } :
      FundamentalData).success = true :=
  ⟨(C2_error_envelope "MC.PA" "2026-02-02" "1y" "1d" "boom" [rowC2] {}).1,
   (C2_error_envelope "MC.PA" "2026-02-02" "1y" "1d" "boom" [rowC2] {}).2.2.2.1
     "cannot convert float NaN to integer" (by decide),
   (C2_error_envelope "MC.PA" "2026-02-02" "1y" "1d" "boom" [rowC2]
     {}).2.2.2.2.2.2.2.1 rowC2 "cannot convert float NaN to integer"
     (by decide) (by decide),
   (C2_error_envelope "MC.PA" "2026-02-02" "1y" "1d" "boom" [] {}).2.2.2.2.2.2.2.2
     (by decide),
   (C2_error_envelope "MC.PA" "2026-02-02" "1y" "1d" "boom" [rowC2] {}).2.2.2.2.1
     _ (by decide)⟩

/-- Two concrete upstream rows in chronological order, for C3. -/
def rowsC3 : List Row :=
  [{ date := "2026-01-02", Open := mkRat 10 1, High := mkRat 12 1,
     Low := mkRat 9 1, Close := mkRat 11 1, Volume := .finite (mkRat 1000 1) },
   { date := "2026-01-03", Open := mkRat 11 1, High := mkRat 13 1,
     Low := mkRat 10 1, Close := mkRat 125 10, Volume := .finite (mkRat 2000 1) }]

/-- The response `get_historical` produces for `rowsC3`. -/
def respC3 : HistoricalResponse :=
  { ticker := "AAPL", period := "5d", interval := "1d",
    data :=
      [{ date := "2026-01-02", «open» := mkRat 10 1, high := mkRat 12 1,
         low := mkRat 9 1, close := mkRat 11 1, volume := 1000,
         adjusted_close := mkRat 11 1 },
       { date := "2026-01-03", «open» := mkRat 11 1, high := mkRat 13 1,
         low := mkRat 10 1, close := mkRat 125 10, volume := 2000,
         adjusted_close := mkRat 125 10 }],
    success := true }

/-- Witness for C3 at the concrete two-row series. -/
theorem C3_witness :
    respC3.data.length = rowsC3.length ∧
    respC3.data.map HistoricalDataPoint.date = rowsC3.map Row.date :=
  ⟨(C3_row_correspondence "AAPL" "5d" "1d" rowsC3 respC3 (by decide)).1,
   (C3_row_correspondence "AAPL" "5d" "1d" rowsC3 respC3 (by decide)).2.1⟩

/-- A concrete row with a fractional close, for C4. -/
def rowC4 : Row :=
  { date := "2026-03-02", Open := mkRat 100 1, High := mkRat 101 1,
    Low := mkRat 99 1, Close := mkRat 1234567 10000,
    Volume := .finite (mkRat 500 1) }

/-- The point `transformRow` produces for `rowC4`. -/
def pntC4 : HistoricalDataPoint :=
  { date := "2026-03-02", «open» := mkRat 100 1, high := mkRat 101 1,
    low := mkRat 99 1, close := mkRat 1234567 10000, volume := 500,
    adjusted_close := mkRat 1234567 10000 }

/-- The response `get_historical` produces for `[rowC4]`. -/
def respC4 : HistoricalResponse :=
  { ticker := "OR.PA", period := "1y", interval := "1d",
    data := [pntC4], success := true }

/-- The quote `get_quote` produces for `[rowC4]`. -/
def quoteC4 : QuoteData :=
  { ticker := "OR.PA", date := "2026-03-02", «open» := mkRat 100 1,
    high := mkRat 101 1, low := mkRat 99 1, close := mkRat 1234567 10000,
    volume := 500, adjusted_close := mkRat 1234567 10000, success := true }

/-- Witness for C4 at the concrete row. -/
theorem C4_witness :
    (pntC4.adjusted_close = pntC4.close ∧ pntC4.close = pyRound 4 rowC4.Close) ∧
    quoteC4.adjusted_close = quoteC4.close :=
  ⟨(C4_adjusted_close_eq_close "OR.PA" "1y" "1d" [rowC4] rowC4 pntC4 respC4
      quoteC4).1 (by decide),
   (C4_adjusted_close_eq_close "OR.PA" "1y" "1d" [rowC4] rowC4 pntC4 respC4
      quoteC4).2.2 (by decide)⟩

/-- Two concrete rows for C7; the quote must come from the second. -/
def rowC7a : Row :=
  { date := "2026-04-01", Open := mkRat 50 1, High := mkRat 51 1,
    Low := mkRat 49 1, Close := mkRat 50 1, Volume := .finite (mkRat 100 1) }

/-- The last upstream row for C7. -/
def rowC7b : Row :=
  { date := "2026-04-02", Open := mkRat 51 1, High := mkRat 52 1,
    Low := mkRat 50 1, Close := mkRat 515 10, Volume := .finite (mkRat 200 1) }

/-- The point `transformRow` produces for `rowC7b`. -/
def pntC7 : HistoricalDataPoint :=
  { date := "2026-04-02", «open» := mkRat 51 1, high := mkRat 52 1,
    low := mkRat 50 1, close := mkRat 515 10, volume := 200,
    adjusted_close := mkRat 515 10 }

/-- Witness for C7 at the concrete two-row series: the quote is built
from the last row and carries that row's date. -/
theorem C7_witness :
    get_quote "AIR.PA" (.ok [rowC7a, rowC7b]) =
      .ok { ticker := "AIR.PA", date := pntC7.date, «open» := pntC7.«open»,
            high := pntC7.high, low := pntC7.low, close := pntC7.close,
            volume := pntC7.volume, adjusted_close := pntC7.adjusted_close,
            success := true } ∧
    pntC7.date = rowC7b.date :=
  C7_quote_refines_historical "AIR.PA" [rowC7a, rowC7b] rowC7b pntC7
    (by decide) (by decide)

/-- A concrete row whose volume is NaN, for the C10 witness. -/
def rowC10 : Row :=
  { date := "2026-05-04", Open := mkRat 20 1, High := mkRat 21 1,
    Low := mkRat 19 1, Close := mkRat 20 1, Volume := .nan }

/-- Witness for C10 at concrete inputs: `3.5` truncates to the floor
`3`, and a NaN volume turns both handlers' requests into the 500
envelope. -/
theorem C10_witness :
    (3 : ℤ) = ⌊(mkRat 7 2 : ℚ)⌋ ∧
    get_historical "SAN.PA" "1y" "1d" (.ok [rowC10]) =
      .httpError 500 { ticker := "SAN.PA", success := false,
                       error := "cannot convert float NaN to integer" } ∧
    get_quote "SAN.PA" (.ok [rowC10]) =
      .httpError 500 { ticker := "SAN.PA", success := false,
                       error := "cannot convert float NaN to integer" } :=
  ⟨((C10_volume_coercion "SAN.PA" "1y" "1d" [rowC10] rowC10 (mkRat 7 2) 3).1
      (by decide)).1 (by decide),
   (C10_volume_coercion "SAN.PA" "1y" "1d" [rowC10] rowC10 (mkRat 7 2) 3).2.2.2.2.1
      (by decide) rfl,
   (C10_volume_coercion "SAN.PA" "1y" "1d" [rowC10] rowC10 (mkRat 7 2) 3).2.2.2.2.2
      (by decide) rfl⟩

end YahooFinanceApi
